import Mathlib

/-!
Verification of the inquiry-2025 developer tooling scripts
(tools/inquiry-tools/inquiry.py, create-research-issues.py,
generate-all-prompts.py, research.py).

Python strings are modelled as lists of characters (a Python `str` is a
sequence of code points); `pys` injects a Lean string literal.  Stateful
code (the `.current` tracker file, the filesystem) is modelled by explicit
state passing, and code that can raise an exception returns `Except` /
an explicit outcome type.  All definitions are translated directly from
the Python source; ASCII semantics are used for `str.lower`/`str.upper`
(the scripts only ever feed ASCII identifiers through them).
-/

/-- Python strings, modelled as their sequence of characters. -/
abbrev PyStr := List Char

/-- Coerces a Lean string literal into the `PyStr` model. -/
def pys (s : String) : PyStr := s.data

/-- Whitespace test used by Python's `str.strip` / `int` (ASCII whitespace). -/
def pyIsSpace (c : Char) : Bool :=
  c = ' ' || c = '\t' || c = '\n' || c = '\x0d' || c = '\x0b' || c = '\x0c'

/-- Python `str.strip()`: drop whitespace from both ends. -/
def pyStrip (s : PyStr) : PyStr :=
  ((s.dropWhile pyIsSpace).reverse.dropWhile pyIsSpace).reverse

/-- Python `str.split(sep)` for a one-character separator: split on every
occurrence, keeping empty pieces (so the result is always non-empty). -/
def pySplitChar (sep : Char) : PyStr → List PyStr
  | [] => [[]]
  | c :: rest =>
    match pySplitChar sep rest with
    | [] => [[]]
    | r :: rs => if c = sep then [] :: r :: rs else (c :: r) :: rs

/-- Python `str.lower()` on one character (ASCII range, as the scripts use it). -/
def pyLowerChar (c : Char) : Char :=
  if 65 ≤ c.toNat ∧ c.toNat ≤ 90 then Char.ofNat (c.toNat + 32) else c

/-- Python `str.upper()` on one character (ASCII range). -/
def pyUpperChar (c : Char) : Char :=
  if 97 ≤ c.toNat ∧ c.toNat ≤ 122 then Char.ofNat (c.toNat - 32) else c

/-- Python `str.lower()`. -/
def pyLower (s : PyStr) : PyStr := s.map pyLowerChar

/-- Python `str.upper()`. -/
def pyUpper (s : PyStr) : PyStr := s.map pyUpperChar

/-- Python `str.replace(a, b)` for one-character arguments. -/
def pyReplaceChar (a b : Char) (s : PyStr) : PyStr :=
  s.map fun c => if c = a then b else c

/-- Python `sub in s` (substring containment) as a boolean scan. -/
def pyContains (needle : PyStr) : PyStr → Bool
  | [] => needle.isEmpty
  | c :: rest => needle.isPrefixOf (c :: rest) || pyContains needle rest

/-- Decimal digit character for a digit value below ten. -/
def digitChar (d : Nat) : Char := Char.ofNat (48 + d)

/-- Little-endian decimal digits of `n`, with explicit fuel so that the
definition is structurally recursive (and hence evaluates in the kernel). -/
def natToStrAux : Nat → Nat → List Char
  | 0, _ => []
  | fuel + 1, n => if n = 0 then [] else digitChar (n % 10) :: natToStrAux fuel (n / 10)

/-- Decimal representation of a natural number, as Python's `str` formats it. -/
def natToStr (n : Nat) : PyStr :=
  if n = 0 then ['0'] else (natToStrAux n n).reverse

/-- Decimal representation of a Python `int` (f-string formatting). -/
def intToStr (i : Int) : PyStr :=
  if i < 0 then '-' :: natToStr i.natAbs else natToStr i.natAbs

/-- Tests whether a character is a decimal digit. -/
def isDigitChar (c : Char) : Bool := 48 ≤ c.toNat && c.toNat ≤ 57

/-- Numeric value of an all-digits, non-empty character list; `none` otherwise. -/
def parseDigits (l : PyStr) : Option Nat :=
  if !l.isEmpty && l.all isDigitChar then
    some (l.foldl (fun a c => 10 * a + (c.toNat - 48)) 0)
  else none

/-- Python `int(s)`: strip whitespace, optional sign, then decimal digits;
raises `ValueError` (modelled as `Except.error`) on anything else. -/
def pyInt (s : PyStr) : Except Unit Int :=
  match pyStrip s with
  | [] => .error ()
  | c :: rest =>
    if c = '-' then
      match parseDigits rest with
      | some n => .ok (-(n : Int))
      | none => .error ()
    else if c = '+' then
      match parseDigits rest with
      | some n => .ok (n : Int)
      | none => .error ()
    else
      match parseDigits (c :: rest) with
      | some n => .ok (n : Int)
      | none => .error ()

-- Basic facts about the string model

theorem pySplitChar_ne_nil (sep : Char) (s : PyStr) : pySplitChar sep s ≠ [] := by
  induction s with
  | nil => simp [pySplitChar]
  | cons c rest ih =>
    simp only [pySplitChar]
    match h : pySplitChar sep rest with
    | [] => exact absurd h ih
    | r :: rs =>
      by_cases hc : c = sep <;> simp [hc]

theorem pySplitChar_no_sep (sep : Char) (s : PyStr) (h : sep ∉ s) :
    pySplitChar sep s = [s] := by
  induction s with
  | nil => rfl
  | cons c rest ih =>
    simp only [List.mem_cons, not_or] at h
    simp only [pySplitChar, ih h.2]
    simp [Ne.symm h.1]

theorem pySplitChar_append (sep : Char) (a b : PyStr) (ha : sep ∉ a) :
    pySplitChar sep (a ++ sep :: b) = a :: pySplitChar sep b := by
  induction a with
  | nil =>
    simp only [List.nil_append, pySplitChar]
    match h : pySplitChar sep b with
    | [] => exact absurd h (pySplitChar_ne_nil sep b)
    | r :: rs => simp
  | cons c rest ih =>
    simp only [List.mem_cons, not_or] at ha
    simp only [List.cons_append, pySplitChar, List.append_eq]
    rw [ih ha.2]
    simp [Ne.symm ha.1]

theorem dropWhile_eq_self_of_all (p : Char → Bool) (l : PyStr)
    (h : ∀ c ∈ l, p c = false) : l.dropWhile p = l := by
  cases l with
  | nil => rfl
  | cons c rest => simp [List.dropWhile_cons, h c (by simp)]

theorem pyStrip_eq_self (s : PyStr) (h : ∀ c ∈ s, pyIsSpace c = false) :
    pyStrip s = s := by
  unfold pyStrip
  rw [dropWhile_eq_self_of_all _ _ h, dropWhile_eq_self_of_all, List.reverse_reverse]
  intro c hc
  exact h c (List.mem_reverse.mp hc)

theorem digitChar_toNat (d : Nat) (h : d < 10) : (digitChar d).toNat = 48 + d := by
  interval_cases d <;> decide

theorem natToStrAux_eq (fuel n : Nat) (h : n ≤ fuel) :
    natToStrAux fuel n = (Nat.digits 10 n).map digitChar := by
  induction fuel generalizing n with
  | zero =>
    have h0 : n = 0 := by omega
    subst h0
    simp [natToStrAux]
  | succ fuel ih =>
    by_cases h0 : n = 0
    · subst h0
      simp [natToStrAux]
    · rw [natToStrAux]
      simp only [h0, if_false]
      rw [Nat.digits_def' (by norm_num : 1 < 10) (Nat.pos_of_ne_zero h0)]
      rw [List.map_cons, ih (n / 10) (by omega)]

theorem natToStr_eq (n : Nat) :
    natToStr n = if n = 0 then ['0'] else ((Nat.digits 10 n).map digitChar).reverse := by
  unfold natToStr
  by_cases h0 : n = 0 <;> simp [h0, natToStrAux_eq n n le_rfl]

theorem mem_natToStr_digit (n : Nat) (c : Char) (h : c ∈ natToStr n) :
    isDigitChar c = true := by
  rw [natToStr_eq] at h
  by_cases h0 : n = 0
  · simp [h0] at h
    subst h
    decide
  · simp only [h0, if_false, List.mem_reverse, List.mem_map] at h
    obtain ⟨d, hd, rfl⟩ := h
    have hlt : d < 10 := Nat.digits_lt_base (by norm_num) hd
    simp only [isDigitChar, digitChar_toNat d hlt, Bool.and_eq_true, decide_eq_true_eq]
    omega

theorem natToStr_ne_nil (n : Nat) : natToStr n ≠ [] := by
  rw [natToStr_eq]
  by_cases h0 : n = 0
  · simp [h0]
  · have hd : Nat.digits 10 n ≠ [] := Nat.digits_ne_nil_iff_ne_zero.mpr h0
    simp [h0, hd]

theorem digit_ne (c : Char) (h : isDigitChar c = true) (x : Char)
    (hx : isDigitChar x = false) : c ≠ x := by
  intro he
  subst he
  rw [h] at hx
  exact absurd hx (by decide)

theorem digit_not_space (c : Char) (h : isDigitChar c = true) :
    pyIsSpace c = false := by
  cases hsp : pyIsSpace c with
  | false => rfl
  | true =>
    exfalso
    simp only [pyIsSpace, Bool.or_eq_true, decide_eq_true_eq] at hsp
    rcases hsp with ((((h1 | h1) | h1) | h1) | h1) | h1 <;> subst h1 <;>
      exact absurd h (by decide)

theorem foldl_reverse_ofDigits (L : List Nat) :
    L.reverse.foldl (fun a d => 10 * a + d) 0 = Nat.ofDigits 10 L := by
  induction L with
  | nil => simp [Nat.ofDigits]
  | cons d L ih =>
    rw [List.reverse_cons, List.foldl_append, ih, Nat.ofDigits_cons]
    simp
    ring

theorem parseDigits_natToStr (n : Nat) : parseDigits (natToStr n) = some n := by
  by_cases h0 : n = 0
  · subst h0
    decide
  · have hne := natToStr_ne_nil n
    have hall : (natToStr n).all isDigitChar = true := by
      rw [List.all_eq_true]
      intro c hc
      exact mem_natToStr_digit n c hc
    have hemp : (natToStr n).isEmpty = false := by
      cases hx : natToStr n with
      | nil => exact absurd hx hne
      | cons c cs => rfl
    unfold parseDigits
    rw [hall, hemp]
    simp only [Bool.not_false, Bool.and_self, if_true, Option.some.injEq]
    rw [natToStr_eq]
    simp only [h0, if_false]
    rw [← List.map_reverse, List.foldl_map]
    rw [List.foldl_ext (fun a d => 10 * a + ((digitChar d).toNat - 48))
      (fun a d => 10 * a + d) 0 ?_]
    · rw [foldl_reverse_ofDigits, Nat.ofDigits_digits]
    · intro a d hd
      have hlt : d < 10 := Nat.digits_lt_base (by norm_num) (List.mem_reverse.mp hd)
      simp only [digitChar_toNat d hlt]
      omega

theorem mem_intToStr (i : Int) (c : Char) (h : c ∈ intToStr i) :
    c = '-' ∨ isDigitChar c = true := by
  unfold intToStr at h
  by_cases hneg : i < 0
  · simp only [hneg, if_true, List.mem_cons] at h
    rcases h with rfl | h
    · exact Or.inl rfl
    · exact Or.inr (mem_natToStr_digit _ c h)
  · simp only [hneg, if_false] at h
    exact Or.inr (mem_natToStr_digit _ c h)

theorem intToStr_no_space (i : Int) : ∀ c ∈ intToStr i, pyIsSpace c = false := by
  intro c hc
  rcases mem_intToStr i c hc with rfl | hd
  · decide
  · exact digit_not_space c hd

theorem pyInt_intToStr (i : Int) : pyInt (intToStr i) = .ok i := by
  unfold pyInt
  rw [pyStrip_eq_self _ (intToStr_no_space i)]
  by_cases hneg : i < 0
  · rw [show intToStr i = '-' :: natToStr i.natAbs from by simp [intToStr, hneg]]
    dsimp only
    rw [if_pos rfl, parseDigits_natToStr]
    dsimp only
    simp only [Except.ok.injEq]
    omega
  · rw [show intToStr i = natToStr i.natAbs from by simp [intToStr, hneg]]
    obtain ⟨c, cs, hcons⟩ : ∃ c cs, natToStr i.natAbs = c :: cs := by
      cases h : natToStr i.natAbs with
      | nil => exact absurd h (natToStr_ne_nil _)
      | cons c cs => exact ⟨c, cs, rfl⟩
    have hdig : isDigitChar c = true := mem_natToStr_digit _ c (by rw [hcons]; simp)
    have hc1 : c ≠ '-' := digit_ne c hdig '-' (by decide)
    have hc2 : c ≠ '+' := digit_ne c hdig '+' (by decide)
    rw [hcons]
    dsimp only
    rw [if_neg hc1, if_neg hc2, ← hcons, parseDigits_natToStr]
    dsimp only
    simp only [Except.ok.injEq]
    omega

theorem Char_toNat_ofNat (m : Nat) (h : m < 55296) : (Char.ofNat m).toNat = m := by
  have hv : m.isValidChar := Or.inl h
  simp only [Char.ofNat, hv, dif_pos, Char.ofNatAux, Char.toNat]
  rfl

theorem dropWhile_eq_self_of_head (p : Char → Bool) (l : PyStr)
    (h : ∀ c, l.head? = some c → p c = false) : l.dropWhile p = l := by
  cases l with
  | nil => rfl
  | cons c rest => simp [List.dropWhile_cons, h c rfl]

theorem pyStrip_eq_self_of_ends (s : PyStr)
    (h1 : ∀ c, s.head? = some c → pyIsSpace c = false)
    (h2 : ∀ c, s.reverse.head? = some c → pyIsSpace c = false) :
    pyStrip s = s := by
  unfold pyStrip
  rw [dropWhile_eq_self_of_head _ _ h1, dropWhile_eq_self_of_head _ _ h2,
    List.reverse_reverse]

-- ============================================
-- The .current tracker file (inquiry.py)
-- ============================================

/-- State of the `.current` tracker file: `none` when the file does not
exist, `some content` when it holds `content`. -/
abbrev TrackerFile := Option PyStr

/-- Translation of inquiry.py `get_current_feature` (lines 77-84): if the
file exists, strip its content; if a colon occurs, split on every colon and
unpack into exactly two names (a `ValueError` — `Except.error` — when the
split does not have exactly two parts), parsing the issue number with
`int`; otherwise return `None`. -/
def get_current_feature (file : TrackerFile) : Except Unit (Option (PyStr × Int)) :=
  match file with
  | none => .ok none
  | some content =>
    if ':' ∈ pyStrip content then
      match pySplitChar ':' (pyStrip content) with
      | [feature_id, issue_num] =>
        match pyInt issue_num with
        | .ok n => .ok (some (feature_id, n))
        | .error _ => .error ()
      | _ => .error ()
    else .ok none

/-- Translation of inquiry.py `set_current_feature` (lines 87-89): write
`f"{feature_id}:{issue_number}"` to the tracker file. -/
def set_current_feature (feature_id : PyStr) (issue_number : Int) : TrackerFile :=
  some (feature_id ++ ':' :: intToStr issue_number)

/-- Translation of inquiry.py `clear_current_feature` (lines 92-95): delete
the tracker file (a no-op when it is already absent). -/
def clear_current_feature (_file : TrackerFile) : TrackerFile := none

theorem intToStr_ne_nil (i : Int) : intToStr i ≠ [] := by
  unfold intToStr
  by_cases hneg : i < 0 <;> simp [hneg, natToStr_ne_nil]

theorem colon_not_mem_intToStr (i : Int) : ':' ∉ intToStr i := by
  intro hmem
  rcases mem_intToStr i ':' hmem with h | h <;> exact absurd h (by decide)

/-- C1 (counterexample): for the feature id `"a:b"` and issue number 5 the
round trip does not return the pair — the written content `"a:b:5"` splits
into three pieces, so `get_current_feature` raises a `ValueError` instead. -/
theorem claim_C1_counterexample :
    get_current_feature (set_current_feature (pys "a:b") 5) ≠
      Except.ok (some (pys "a:b", 5)) := by
  have h : get_current_feature (set_current_feature (pys "a:b") 5) =
      Except.error () := by rfl
  rw [h]
  intro hcontra
  exact Except.noConfusion hcontra

/-- C1 (amended): the tracker stores the pair as `id:issue_number` in the
dotfile, and for every feature id that contains no colon and does not start
with a whitespace character, and every issue number `n`, calling
`set_current_feature` and then `get_current_feature` returns exactly
`(feature_id, n)`.  (Ids containing a colon make the read raise, and a
leading whitespace character would be removed by `strip()` on read.) -/
theorem claim_C1 (feature_id : PyStr) (n : Int)
    (hcolon : ':' ∉ feature_id)
    (hws : ∀ c, feature_id.head? = some c → pyIsSpace c = false) :
    get_current_feature (set_current_feature feature_id n) =
      Except.ok (some (feature_id, n)) := by
  have hne : intToStr n ≠ [] := intToStr_ne_nil n
  have hnosep : ':' ∉ intToStr n := colon_not_mem_intToStr n
  have hstr : pyStrip (feature_id ++ ':' :: intToStr n) =
      feature_id ++ ':' :: intToStr n := by
    apply pyStrip_eq_self_of_ends
    · intro c hc
      cases feature_id with
      | nil =>
        simp only [List.nil_append, List.head?_cons, Option.some.injEq] at hc
        subst hc
        decide
      | cons a as =>
        simp only [List.cons_append, List.head?_cons, Option.some.injEq] at hc
        subst hc
        exact hws a rfl
    · intro c hc
      rw [List.reverse_append, List.reverse_cons] at hc
      obtain ⟨d, ds, hds⟩ : ∃ d ds, (intToStr n).reverse = d :: ds := by
        cases hx : (intToStr n).reverse with
        | nil => exact absurd (List.reverse_eq_nil_iff.mp hx) hne
        | cons d ds => exact ⟨d, ds, rfl⟩
      rw [hds] at hc
      simp only [List.cons_append, List.head?_cons, Option.some.injEq] at hc
      have hd : d ∈ intToStr n := by
        rw [← List.mem_reverse, hds]
        simp
      have hdns : pyIsSpace d = false := by
        rcases mem_intToStr n d hd with rfl | hdig
        · decide
        · exact digit_not_space d hdig
      rw [← hc]
      exact hdns
  have hmem : ':' ∈ feature_id ++ ':' :: intToStr n := by simp
  have hsplit : pySplitChar ':' (feature_id ++ ':' :: intToStr n) =
      [feature_id, intToStr n] := by
    rw [pySplitChar_append ':' feature_id (intToStr n) hcolon,
      pySplitChar_no_sep ':' (intToStr n) hnosep]
  unfold set_current_feature get_current_feature
  dsimp only
  rw [hstr, if_pos hmem, hsplit]
  dsimp only
  rw [pyInt_intToStr]

/-- Witness for C1: the round trip at the concrete id `"1.1"` and issue
number 5 returns exactly that pair. -/
theorem claim_C1_witness :
    get_current_feature (set_current_feature (pys "1.1") 5) =
      Except.ok (some (pys "1.1", 5)) :=
  claim_C1 (pys "1.1") 5 (by decide) (by intro c hc; cases hc; decide)

/-- C10: `get_current_feature` returns `None` without raising whenever the
`.current` file does not exist or its stripped content contains no colon. -/
theorem claim_C10 :
    get_current_feature none = Except.ok none ∧
      ∀ content : PyStr, ':' ∉ pyStrip content →
        get_current_feature (some content) = Except.ok none := by
  refine ⟨rfl, fun content h => ?_⟩
  unfold get_current_feature
  dsimp only
  rw [if_neg h]

/-- Witness for C10: an existing tracker file holding garbage without a
colon makes `get_current_feature` return `None`. -/
theorem claim_C10_witness :
    get_current_feature (some (pys "garbage")) = Except.ok none :=
  claim_C10.2 (pys "garbage") (by decide)

-- ============================================
-- slugify (research.py)
-- ============================================

/-- Translation of research.py `slugify` (lines 566-568): lower-case the
text, then replace spaces with hyphens, then underscores with hyphens. -/
def slugify (text : PyStr) : PyStr :=
  pyReplaceChar '_' '-' (pyReplaceChar ' ' '-' (pyLower text))

/-- Per-character action of `slugify` (used to reason about the maps). -/
def slugChar (c : Char) : Char :=
  if (if pyLowerChar c = ' ' then '-' else pyLowerChar c) = '_' then '-'
  else if pyLowerChar c = ' ' then '-' else pyLowerChar c

theorem slugify_eq_map (s : PyStr) : slugify s = s.map slugChar := by
  simp only [slugify, pyLower, pyReplaceChar, List.map_map]
  rfl

theorem pyLowerChar_not_upper (c : Char) :
    ¬(65 ≤ (pyLowerChar c).toNat ∧ (pyLowerChar c).toNat ≤ 90) := by
  unfold pyLowerChar
  by_cases h : 65 ≤ c.toNat ∧ c.toNat ≤ 90
  · rw [if_pos h, Char_toNat_ofNat _ (by omega)]
    omega
  · rw [if_neg h]
    exact h

theorem pyLowerChar_eq_self (c : Char) (h : ¬(65 ≤ c.toNat ∧ c.toNat ≤ 90)) :
    pyLowerChar c = c := if_neg h

theorem slugChar_spec (c : Char) :
    slugChar c ≠ ' ' ∧ slugChar c ≠ '_' ∧
      ¬(65 ≤ (slugChar c).toNat ∧ (slugChar c).toNat ≤ 90) := by
  unfold slugChar
  by_cases h1 : pyLowerChar c = ' '
  · rw [if_pos h1]
    rw [if_neg (by decide : ¬('-' : Char) = '_')]
    exact ⟨by decide, by decide, by decide⟩
  · rw [if_neg h1]
    by_cases h2 : pyLowerChar c = '_'
    · rw [if_pos h2]
      exact ⟨by decide, by decide, by decide⟩
    · rw [if_neg h2]
      exact ⟨h1, h2, pyLowerChar_not_upper c⟩

theorem slugChar_eq_self (c : Char) (h1 : c ≠ ' ') (h2 : c ≠ '_')
    (h3 : ¬(65 ≤ c.toNat ∧ c.toNat ≤ 90)) : slugChar c = c := by
  unfold slugChar
  rw [pyLowerChar_eq_self c h3, if_neg h1, if_neg h2]

theorem slugChar_idem (c : Char) : slugChar (slugChar c) = slugChar c := by
  obtain ⟨h1, h2, h3⟩ := slugChar_spec c
  exact slugChar_eq_self (slugChar c) h1 h2 h3

set_option maxHeartbeats 1000000 in
/-- C9: `slugify` is idempotent, and its result contains no space, no
underscore, and no uppercase ASCII letter (code points 65-90). -/
theorem claim_C9 (s : PyStr) :
    slugify (slugify s) = slugify s ∧
      ∀ c ∈ slugify s, c ≠ ' ' ∧ c ≠ '_' ∧ ¬(65 ≤ c.toNat ∧ c.toNat ≤ 90) := by
  constructor
  · rw [slugify_eq_map s, slugify_eq_map, List.map_map]
    induction s with
    | nil => rfl
    | cons c rest ih =>
      simp only [List.map_cons, Function.comp_apply, List.cons.injEq]
      exact ⟨slugChar_idem c, ih⟩
  · intro c hc
    rw [slugify_eq_map] at hc
    obtain ⟨a, _, rfl⟩ := List.mem_map.mp hc
    exact slugChar_spec a

/-- Witness for C9: evaluated at the concrete string `"Ab c_D"` (which
slugifies to `"ab-c-d"`), the round trip is stable and the character `'a'`
of the result is neither a space, an underscore, nor uppercase. -/
theorem claim_C9_witness :
    slugify (slugify (pys "Ab c_D")) = slugify (pys "Ab c_D") ∧
      ('a' ≠ ' ' ∧ 'a' ≠ '_' ∧ ¬(65 ≤ 'a'.toNat ∧ 'a'.toNat ≤ 90)) :=
  ⟨(claim_C9 (pys "Ab c_D")).1, (claim_C9 (pys "Ab c_D")).2 'a' (by decide)⟩

-- ============================================
-- Prompt filtering (generate-all-prompts.py)
-- ============================================

/-- Entry produced by `get_prompt_files` (generate-all-prompts.py lines
34-48): the prompt id (file stem), its path, and its type (the part of the
id before the first dot). -/
structure PromptFile where
  id : PyStr
  path : PyStr
  type : PyStr

/-- Stage of `filter_prompts` guarded by `if ids:` (lines 56-57): Python
truthiness, so `None` and the empty string leave the list unchanged. -/
def filterByIds (ids : Option PyStr) (prompts : List PromptFile) : List PromptFile :=
  match ids with
  | none => prompts
  | some s =>
    if s.isEmpty then prompts
    else
      let id_list := (pySplitChar ',' s).map pyStrip
      prompts.filter fun p => decide (p.id ∈ id_list)

/-- Stage of `filter_prompts` guarded by `if types:` (lines 59-61). -/
def filterByTypes (types : Option PyStr) (prompts : List PromptFile) : List PromptFile :=
  match types with
  | none => prompts
  | some s =>
    if s.isEmpty then prompts
    else
      let type_list := (pySplitChar ',' s).map fun t => pyUpper (pyStrip t)
      prompts.filter fun p => decide (pyUpper p.type ∈ type_list)

/-- Stage of `filter_prompts` guarded by `if phase is not None` (lines
63-65): keep prompts whose id contains `".{phase}."` or starts with
`"{type}.{phase}"`. -/
def filterByPhase (phase : Option Int) (prompts : List PromptFile) : List PromptFile :=
  match phase with
  | none => prompts
  | some ph =>
    prompts.filter fun p =>
      pyContains ('.' :: (intToStr ph ++ pys ".")) p.id ||
        (p.type ++ '.' :: intToStr ph).isPrefixOf p.id

/-- Translation of `filter_prompts` (generate-all-prompts.py lines 51-67):
the id filter, then the type filter, then the phase filter, applied in the
source's order to the running `filtered` list. -/
def filter_prompts (prompts : List PromptFile) (types ids : Option PyStr)
    (phase : Option Int) : List PromptFile :=
  filterByPhase phase (filterByTypes types (filterByIds ids prompts))

theorem filterByIds_sublist (ids : Option PyStr) (prompts : List PromptFile) :
    (filterByIds ids prompts).Sublist prompts := by
  unfold filterByIds
  rcases ids with _ | s
  · exact List.Sublist.refl _
  · dsimp only
    split
    · exact List.Sublist.refl _
    · exact List.filter_sublist _

theorem filterByTypes_sublist (types : Option PyStr) (prompts : List PromptFile) :
    (filterByTypes types prompts).Sublist prompts := by
  unfold filterByTypes
  rcases types with _ | s
  · exact List.Sublist.refl _
  · dsimp only
    split
    · exact List.Sublist.refl _
    · exact List.filter_sublist _

theorem filterByPhase_sublist (phase : Option Int) (prompts : List PromptFile) :
    (filterByPhase phase prompts).Sublist prompts := by
  unfold filterByPhase
  rcases phase with _ | ph
  · exact List.Sublist.refl _
  · exact List.filter_sublist _

/-- C8: `filter_prompts` is the identity when all three filters are `None`,
and for every combination of filters its result is a sublist (subsequence)
of the input: every returned prompt was in the input, relative order is
preserved, and no prompt occurs more often than in the input. -/
theorem claim_C8 (prompts : List PromptFile) :
    filter_prompts prompts none none none = prompts ∧
      ∀ (types ids : Option PyStr) (phase : Option Int),
        (filter_prompts prompts types ids phase).Sublist prompts := by
  refine ⟨rfl, fun types ids phase => ?_⟩
  exact ((filterByPhase_sublist phase _).trans
    (filterByTypes_sublist types _)).trans (filterByIds_sublist ids prompts)

-- ============================================
-- Issue body templates (create-research-issues.py)
-- ============================================

/-- Item of a `categories` (or `pilot_candidates`) list in the YAML
configuration: either a mapping or a plain scalar (the Python code branches
on `isinstance(item, dict)`). -/
inductive TableItem where
  | dict (name description priority : Option PyStr)
  | str (s : PyStr)

/-- Item of a `resources` list: a mapping with `title`/`url` or a scalar. -/
inductive ResourceItem where
  | dict (title url : Option PyStr)
  | str (s : PyStr)

/-- Item of a `claim_types` list: a mapping with keys `type`, `example`,
`risk`, `regulation`, or a scalar. -/
inductive ClaimTypeItem where
  | dict (typ exmpl risk regulation : Option PyStr)
  | str (s : PyStr)

/-- Item of a `pilot_candidates` list: a mapping with keys `name`,
`reason`, `priority`, or a scalar. -/
inductive PilotRowItem where
  | dict (name reason priority : Option PyStr)
  | str (s : PyStr)

/-- Translation of `generate_table_rows` (lines 338-347): the `| TBD | TBD
| TBD |` row on an empty list, otherwise one row per item. -/
def generate_table_rows (items : List TableItem) : PyStr :=
  if items.isEmpty then pys "| TBD | TBD | TBD |"
  else List.intercalate (pys "\n") (items.map fun item =>
    match item with
    | .dict name description priority =>
      pys "| " ++ name.getD (pys "") ++ pys " | " ++ description.getD (pys "") ++
        pys " | " ++ priority.getD (pys "Medium") ++ pys " |"
    | .str s => pys "| " ++ s ++ pys " | TBD | Medium |")

/-- Translation of `generate_claim_type_rows` (lines 350-359). -/
def generate_claim_type_rows (items : List ClaimTypeItem) : PyStr :=
  if items.isEmpty then pys "| TBD | TBD | TBD | TBD |"
  else List.intercalate (pys "\n") (items.map fun item =>
    match item with
    | .dict typ exmpl risk regulation =>
      pys "| " ++ typ.getD (pys "") ++ pys " | " ++ exmpl.getD (pys "") ++
        pys " | " ++ risk.getD (pys "Medium") ++ pys " | " ++
        regulation.getD (pys "") ++ pys " |"
    | .str s => pys "| " ++ s ++ pys " | TBD | Medium | TBD |")

/-- Translation of `generate_pilot_rows` (lines 362-371). -/
def generate_pilot_rows (items : List PilotRowItem) : PyStr :=
  if items.isEmpty then pys "| TBD | TBD | TBD |"
  else List.intercalate (pys "\n") (items.map fun item =>
    match item with
    | .dict name reason priority =>
      pys "| " ++ name.getD (pys "") ++ pys " | " ++ reason.getD (pys "") ++
        pys " | " ++ priority.getD (pys "Medium") ++ pys " |"
    | .str s => pys "| " ++ s ++ pys " | TBD | Medium |")

/-- Translation of `generate_bullet_list` (lines 386-389). -/
def generate_bullet_list (items : List PyStr) : PyStr :=
  if items.isEmpty then pys "- TBD"
  else List.intercalate (pys "\n") (items.map fun item => pys "- " ++ item)

/-- Translation of `generate_numbered_list` (lines 392-395). -/
def generate_numbered_list (items : List PyStr) : PyStr :=
  if items.isEmpty then pys "1. TBD"
  else List.intercalate (pys "\n") (items.enum.map fun p =>
    natToStr (p.1 + 1) ++ pys ". " ++ p.2)

/-- Translation of `generate_resource_list` (lines 398-407). -/
def generate_resource_list (items : List ResourceItem) : PyStr :=
  if items.isEmpty then pys "- TBD"
  else List.intercalate (pys "\n") (items.map fun item =>
    match item with
    | .dict title url =>
      pys "- [" ++ title.getD (pys "Link") ++ pys "](" ++ url.getD (pys "#") ++ pys ")"
    | .str s => pys "- " ++ s)

/-- Python `", ".join(items)`. -/
def joinCommaSpace (items : List PyStr) : PyStr :=
  List.intercalate (pys ", ") items

-- Containment lemmas for the template proofs

theorem isPrefixOf_append_self (n b : PyStr) : n.isPrefixOf (n ++ b) = true := by
  simp [List.isPrefixOf_iff_prefix]

theorem pyContains_front (n b : PyStr) : pyContains n (n ++ b) = true := by
  cases n with
  | nil => cases b <;> simp [pyContains, List.isEmpty]
  | cons c cs =>
    have h := isPrefixOf_append_self (c :: cs) b
    rw [List.cons_append] at h
    simp [pyContains, h]

theorem pyContains_append_left (x n s : PyStr) (h : pyContains n s = true) :
    pyContains n (x ++ s) = true := by
  induction x with
  | nil => simpa using h
  | cons c rest ih =>
    rw [List.cons_append]
    simp [pyContains, ih]

theorem pyContains_front2 (a b rest : PyStr) :
    pyContains (a ++ b) (a ++ (b ++ rest)) = true := by
  have h := pyContains_front (a ++ b) rest
  rwa [List.append_assoc] at h

/-- Domain mapping from the YAML configuration, with every key optional
(the generator reads each key with `dict.get` and a default). -/
structure Domain where
  name : Option PyStr
  regulator : Option PyStr
  jurisdiction : Option PyStr
  categories : Option (List TableItem)
  slug : Option PyStr
  resources : Option (List ResourceItem)
  notes : Option PyStr
  effort : Option PyStr

/-- Industry mapping from the YAML configuration, with every key optional. -/
structure Industry where
  name : Option PyStr
  regulators : Option (List PyStr)
  market_size : Option PyStr
  claim_types : Option (List ClaimTypeItem)
  federal_regulations : Option (List PyStr)
  state_regulations : Option (List PyStr)
  self_regulatory : Option (List PyStr)
  compliance_considerations : Option (List PyStr)
  slug : Option PyStr
  pilot_candidates : Option (List PilotRowItem)
  resources : Option (List ResourceItem)
  notes : Option PyStr
  effort : Option PyStr

/-- Translation of `generate_domain_body` (lines 77-126): the f-string
template with each `domain.get(key, default)` rendered via `Option.getD`.
The literal text is split at the interpolation points. -/
def generate_domain_body (domain : Domain) : PyStr :=
  pys "## Domain Overview\n\n**Domain Name:** " ++ domain.name.getD (pys "") ++
  pys "\n**Regulatory Body:** " ++ domain.regulator.getD (pys "") ++
  pys "\n" ++ pys "**Jurisdiction:** " ++
  domain.jurisdiction.getD (pys "United States Federal") ++
  pys "\n\n## Research Objectives\n\n- [ ] Identify claim categories within this domain\n- [ ] Document substantiation requirements per category\n- [ ] Map risk levels and enforcement patterns\n- [ ] Identify high-risk keywords and patterns\n- [ ] Review recent enforcement actions (2023-2025)\n- [ ] Create classification taxonomy\n\n## Claim Categories to Research\n\n| Category | Description | Priority |\n|----------|-------------|----------|\n" ++
  generate_table_rows (domain.categories.getD []) ++
  pys "\n\n## Key Questions\n\n1. What types of claims fall under this domain?\n2. What evidence is required to substantiate each claim type?\n3. What are the penalties for non-compliance?\n4. What are recent enforcement trends?\n5. Are there safe harbors or exemptions?\n\n## Deliverables\n\n- [ ] `research/domains/" ++
  domain.slug.getD (pys "domain") ++
  pys "/taxonomy.md` - Claim category taxonomy\n- [ ] `research/domains/" ++
  domain.slug.getD (pys "domain") ++
  pys "/guidelines.md` - Regulatory guidelines summary\n- [ ] `research/domains/" ++
  domain.slug.getD (pys "domain") ++
  pys "/enforcement.md` - Enforcement actions review\n- [ ] `research/domains/" ++
  domain.slug.getD (pys "domain") ++
  pys "/patterns.md` - High-risk patterns and keywords\n\n## Resources\n\n" ++
  generate_resource_list (domain.resources.getD []) ++
  pys "\n\n## Notes\n\n" ++ domain.notes.getD (pys "") ++
  pys "\n\n---\n\n" ++ pys "**Estimated Effort:** " ++
  domain.effort.getD (pys "Medium") ++ pys "\n"

/-- Translation of `generate_industry_body` (lines 129-191). -/
def generate_industry_body (industry : Industry) : PyStr :=
  pys "## Industry Overview\n\n**Industry Name:** " ++ industry.name.getD (pys "") ++
  pys "\n**Primary Regulators:** " ++ joinCommaSpace (industry.regulators.getD []) ++
  pys "\n**Market Size:** " ++ industry.market_size.getD (pys "TBD") ++
  pys "\n\n## Research Objectives\n\n- [ ] Identify common claim types in this industry\n- [ ] Document industry-specific regulations\n- [ ] Review self-regulatory guidelines (if any)\n- [ ] Analyze recent enforcement trends\n- [ ] Identify high-risk marketing practices\n- [ ] Document compliant claim examples\n\n## Common Claim Types\n\n| Claim Type | Example | Risk Level | Applicable Regulation |\n|------------|---------|------------|----------------------|\n" ++
  generate_claim_type_rows (industry.claim_types.getD []) ++
  pys "\n\n## Regulatory Landscape\n\n### Federal Regulations\n" ++
  generate_bullet_list (industry.federal_regulations.getD []) ++
  pys "\n\n### State Regulations\n" ++
  generate_bullet_list (industry.state_regulations.getD []) ++
  pys "\n\n### Self-Regulatory Bodies\n" ++
  generate_bullet_list (industry.self_regulatory.getD []) ++
  pys "\n\n## Key Compliance Considerations\n\n" ++
  generate_numbered_list (industry.compliance_considerations.getD []) ++
  pys "\n\n## Deliverables\n\n- [ ] `research/industries/" ++
  industry.slug.getD (pys "industry") ++
  pys "/overview.md` - Industry compliance overview\n- [ ] `research/industries/" ++
  industry.slug.getD (pys "industry") ++
  pys "/claim-types.md` - Common claim patterns\n- [ ] `research/industries/" ++
  industry.slug.getD (pys "industry") ++
  pys "/regulations.md` - Regulatory requirements\n- [ ] `research/industries/" ++
  industry.slug.getD (pys "industry") ++
  pys "/examples.md` - Compliant/non-compliant examples\n\n## Pilot Candidates\n\n| Company/Product | Reason | Priority |\n|-----------------|--------|----------|\n" ++
  generate_pilot_rows (industry.pilot_candidates.getD []) ++
  pys "\n\n## Resources\n\n" ++
  generate_resource_list (industry.resources.getD []) ++
  pys "\n\n## Notes\n\n" ++ industry.notes.getD (pys "") ++
  pys "\n\n---\n\n" ++ pys "**Estimated Effort:** " ++
  industry.effort.getD (pys "Medium") ++ pys "\n"

set_option maxRecDepth 40000 in
/-- C3: for every domain mapping whose `categories` entry is absent or the
empty list, the generated domain body contains the literal table row
`| TBD | TBD | TBD |`. -/
theorem claim_C3 (domain : Domain)
    (h : domain.categories = none ∨ domain.categories = some []) :
    pyContains (pys "| TBD | TBD | TBD |") (generate_domain_body domain) = true := by
  have hc : domain.categories.getD [] = [] := by
    rcases h with h | h <;> simp [h]
  have hrow : generate_table_rows (domain.categories.getD []) =
      pys "| TBD | TBD | TBD |" := by
    rw [hc]
    rfl
  unfold generate_domain_body
  rw [hrow]
  simp only [List.append_assoc]
  repeat
    first
    | exact pyContains_front _ _
    | apply pyContains_append_left

/-- Witness for C3: the all-defaults domain (every key absent) produces a
body containing the TBD row. -/
theorem claim_C3_witness :
    pyContains (pys "| TBD | TBD | TBD |")
      (generate_domain_body ⟨none, none, none, none, none, none, none, none⟩) = true :=
  claim_C3 ⟨none, none, none, none, none, none, none, none⟩ (Or.inl rfl)

set_option maxRecDepth 40000 in
/-- C7: the issue-body generators are total over arbitrary configuration
mappings (every field of `Domain` and `Industry` is an `Option`, so the
functions are defined for every input) and each key lookup yields the
present value or the stated default: the domain body always contains the
`Jurisdiction` line with the present value or `United States Federal`, and
the domain and industry bodies always end with the `Estimated Effort` line
with the present value or `Medium`. -/
theorem claim_C7 (domain : Domain) (industry : Industry) :
    pyContains (pys "**Jurisdiction:** " ++
        domain.jurisdiction.getD (pys "United States Federal"))
      (generate_domain_body domain) = true ∧
    pyContains (pys "**Estimated Effort:** " ++ domain.effort.getD (pys "Medium"))
      (generate_domain_body domain) = true ∧
    pyContains (pys "**Estimated Effort:** " ++ industry.effort.getD (pys "Medium"))
      (generate_industry_body industry) = true := by
  refine ⟨?_, ?_, ?_⟩
  · unfold generate_domain_body
    simp only [List.append_assoc]
    repeat
      first
      | exact pyContains_front2 _ _ _
      | apply pyContains_append_left
  · unfold generate_domain_body
    simp only [List.append_assoc]
    repeat
      first
      | exact pyContains_front2 _ _ _
      | apply pyContains_append_left
  · unfold generate_industry_body
    simp only [List.append_assoc]
    repeat
      first
      | exact pyContains_front2 _ _ _
      | apply pyContains_append_left

-- ============================================
-- Filesystem scaffolding (research.py, inquiry.py)
-- ============================================

/-- Filesystem contents: a map from paths to file contents (`none` when no
file exists at the path).  Directory creation does not affect this map. -/
abbrev FS := PyStr → Option PyStr

/-- Writes (or overwrites) one file. -/
def fsWrite (fs : FS) (path content : PyStr) : FS :=
  fun q => if q = path then some content else fs q

/-- Translation of research.py `create_file` (lines 554-563): skip and
return `False` when the path exists and `overwrite` is not set, otherwise
write the content and return `True`. -/
def create_file (fs : FS) (path : PyStr) (content : PyStr) (overwrite : Bool) :
    Bool × FS :=
  if (fs path).isSome && !overwrite then (false, fs)
  else (true, fsWrite fs path content)

/-- Feature mapping from features.yaml as inquiry.py reads it: `title` is
accessed by indexing (required), everything else through `.get`. -/
structure Feature where
  title : PyStr
  description : Option PyStr
  acceptance_criteria : Option (List PyStr)
  files : Option (List PyStr)
  phase : Option PyStr
  component : Option PyStr
  size : Option PyStr

/-- Path of the prompt file for a feature (`PROMPTS_DIR / f"{id}.md"`). -/
def promptPath (feature_id : PyStr) : PyStr :=
  pys "prompts/" ++ feature_id ++ pys ".md"

/-- Content written by inquiry.py `_create_prompt_file` (lines 417-458):
the prompt template with the feature title, stripped description, one line
per acceptance criterion and per file, and the fixed footer. -/
def prompt_template (feature_id : PyStr) (feature : Feature) : PyStr :=
  pys "# PROMPT " ++ feature_id ++ pys ": " ++ feature.title ++
  pys "\n\n## Instructions\n- Create all files directly without asking for confirmation\n- Do not ask \"Would you like me to create this file?\" — just create it\n- Do not ask \"Should I save this?\" — just save it\n- Output complete, working code for all files\n- Save files to the specified paths\n\n## Context\n" ++
  pyStrip (feature.description.getD (pys "TODO: Add context")) ++
  pys "\n\n## Tech Stack\n- TypeScript 5.4+\n- Node.js 20+\n- [Add relevant technologies]\n\n## Requirements\n\n### Acceptance Criteria\n" ++
  List.flatten ((feature.acceptance_criteria.getD []).map fun c =>
    pys "- " ++ c ++ pys "\n") ++
  pys "\n### Files to Create\n" ++
  List.flatten ((feature.files.getD []).map fun f =>
    pys "- `" ++ f ++ pys "`\n") ++
  pys "\n## Implementation Details\n\n[Add detailed implementation instructions here]\n\n## Success Criteria\n- [ ] All files created\n- [ ] Tests pass\n- [ ] Acceptance criteria met\n"

/-- Translation of inquiry.py `_create_prompt_file` (lines 405-462): if the
prompt file exists and `overwrite` is not set, print a warning and return
`False` without writing; otherwise write the template and return `True`. -/
def _create_prompt_file (fs : FS) (feature_id : PyStr) (feature : Feature)
    (overwrite : Bool) : Bool × FS :=
  if (fs (promptPath feature_id)).isSome && !overwrite then (false, fs)
  else (true, fsWrite fs (promptPath feature_id) (prompt_template feature_id feature))

/-- C5: scaffolding skips existing files — when the target path already
exists, `create_file` and `_create_prompt_file` with `overwrite = false`
return `False` and leave the filesystem (hence the existing content)
unchanged. -/
theorem claim_C5 (fs : FS) (path content feature_id : PyStr) (feature : Feature)
    (h1 : (fs path).isSome) (h2 : (fs (promptPath feature_id)).isSome) :
    create_file fs path content false = (false, fs) ∧
      _create_prompt_file fs feature_id feature false = (false, fs) := by
  constructor
  · unfold create_file
    rw [if_pos (by simp [h1])]
  · unfold _create_prompt_file
    rw [if_pos (by simp [h2])]

/-- Witness for C5: a filesystem on which both target paths exist is left
untouched and both calls return `False`. -/
theorem claim_C5_witness :
    create_file
        (fun q => if q = pys "doc.md" then some (pys "old") else
          if q = promptPath (pys "1.1") then some (pys "p") else none)
        (pys "doc.md") (pys "new") false =
      (false, fun q => if q = pys "doc.md" then some (pys "old") else
          if q = promptPath (pys "1.1") then some (pys "p") else none) ∧
    _create_prompt_file
        (fun q => if q = pys "doc.md" then some (pys "old") else
          if q = promptPath (pys "1.1") then some (pys "p") else none)
        (pys "1.1") ⟨pys "Title", none, none, none, none, none, none⟩ false =
      (false, fun q => if q = pys "doc.md" then some (pys "old") else
          if q = promptPath (pys "1.1") then some (pys "p") else none) :=
  claim_C5 _ (pys "doc.md") (pys "new") (pys "1.1")
    ⟨pys "Title", none, none, none, none, none, none⟩
    (by decide) (by decide)

-- ============================================
-- Configuration-file loading (C4)
-- ============================================

/-- Outcome of loading a required input file: the loaded value, a printed
error message followed by `sys.exit(1)`, or an uncaught exception. -/
inductive LoadResult (α : Type) where
  | ok (val : α)
  | exited
  | raised

/-- Translation of create-research-issues.py `load_config` (lines 34-41):
an explicit existence check that prints an error and exits when the file is
missing; the YAML parse is modelled as returning the raw content. -/
def load_config (fs : FS) (config_path : PyStr) : LoadResult PyStr :=
  match fs config_path with
  | none => .exited
  | some content => .ok content

/-- Path of features.yaml relative to the tools directory. -/
def FEATURES_FILE : PyStr := pys "features.yaml"

/-- Translation of inquiry.py `load_features` (lines 44-47): a bare
`open(FEATURES_FILE)` with no existence check, so a missing file raises an
uncaught `FileNotFoundError`. -/
def load_features (fs : FS) : LoadResult PyStr :=
  match fs FEATURES_FILE with
  | none => .raised
  | some content => .ok content

/-- C4 (counterexample): the claim fails for inquiry.py — when
features.yaml does not exist, `load_features` raises an uncaught
`FileNotFoundError` instead of printing a message and exiting. -/
theorem claim_C4_counterexample :
    load_features (fun _ => none) = LoadResult.raised ∧
      (LoadResult.raised : LoadResult PyStr) ≠ LoadResult.exited := by
  refine ⟨rfl, fun h => ?_⟩
  exact LoadResult.noConfusion h

/-- C4 (amended): only create-research-issues.py's `load_config` handles a
missing configuration file with a direct check that prints an error and
exits; inquiry.py's `load_features` performs no check, and a missing
features.yaml raises an unhandled exception.  (research.py and
generate-all-prompts.py load no configuration file.) -/
theorem claim_C4 :
    (∀ (fs : FS) (p : PyStr), fs p = none → load_config fs p = LoadResult.exited) ∧
      (∀ fs : FS, fs FEATURES_FILE = none → load_features fs = LoadResult.raised) := by
  constructor
  · intro fs p h
    unfold load_config
    rw [h]
  · intro fs h
    unfold load_features
    rw [h]

/-- Witness for C4: on the empty filesystem, `load_config` exits with a
message and `load_features` raises. -/
theorem claim_C4_witness :
    load_config (fun _ => none) (pys "features.yaml") = LoadResult.exited ∧
      load_features (fun _ => none) = LoadResult.raised :=
  ⟨claim_C4.1 (fun _ => none) (pys "features.yaml") rfl,
    claim_C4.2 (fun _ => none) rfl⟩

-- ============================================
-- Workflow commands and the tracker invariant (inquiry.py)
-- ============================================

/-- Label object returned by the GitHub client. -/
structure GhLabel where
  name : PyStr

/-- State observable across a command invocation: the `.current` tracker
file and the numbers of the issues created through `repo.create_issue`. -/
structure World where
  currentFile : TrackerFile
  createdIssues : List Nat

/-- How a command invocation ends: normal return, `sys.exit`, or an
unhandled exception. -/
inductive Outcome where
  | ok
  | exited
  | crashed

/-- Results of the external GitHub calls made by `cmd_start`: label lookup,
label creation (name and colour), and issue creation (title, body, labels,
returning the new issue number); each can raise. -/
structure StartExt where
  lookupLabel : PyStr → Except Unit GhLabel
  createLabel : PyStr → PyStr → Except Unit GhLabel
  createIssue : PyStr → PyStr → List GhLabel → Except Unit Nat

/-- Python truthiness of an optional string (`None` and `""` are falsy). -/
def pyTruthyStr (o : Option PyStr) : Bool :=
  match o with
  | none => false
  | some s => !s.isEmpty

/-- Python truthiness of an optional list (`None` and `[]` are falsy). -/
def pyTruthyList {α : Type} (o : Option (List α)) : Bool :=
  match o with
  | none => false
  | some l => !l.isEmpty

/-- Issue body built by `cmd_start` (inquiry.py lines 196-218): optional
Description, Acceptance Criteria and Files sections (guarded by Python
truthiness), then the Prompt pointer, joined with newlines. -/
def build_issue_body (feature_id : PyStr) (feature : Feature) : PyStr :=
  List.intercalate (pys "\n")
    ((if pyTruthyStr feature.description then
        [pys "## Description", pyStrip (feature.description.getD (pys "")), pys ""]
      else []) ++
    (if pyTruthyList feature.acceptance_criteria then
        [pys "## Acceptance Criteria"] ++
          ((feature.acceptance_criteria.getD []).map fun c => pys "- [ ] " ++ c) ++
          [pys ""]
      else []) ++
    (if pyTruthyList feature.files then
        [pys "## Files to Create/Modify"] ++
          ((feature.files.getD []).map fun f => pys "- `" ++ f ++ pys "`") ++
          [pys ""]
      else []) ++
    [pys "## Prompt", pys "See `tools/prompts/" ++ feature_id ++ pys ".md`"])

/-- Labels gathered by `cmd_start` (inquiry.py lines 221-234): for each of
the phase, component and size label names (when truthy), try the lookup;
on failure try creating the label with colour `0366d6`; on failure again,
silently skip it. -/
def gatherLabels (ext : StartExt) (feature : Feature) : List GhLabel :=
  [feature.phase, feature.component, feature.size].foldl
    (fun labels slot =>
      match slot with
      | none => labels
      | some label_name =>
        if label_name.isEmpty then labels
        else
          match ext.lookupLabel label_name with
          | .ok l => labels ++ [l]
          | .error _ =>
            match ext.createLabel label_name (pys "0366d6") with
            | .ok l => labels ++ [l]
            | .error _ => labels) []

/-- Commands of the inquiry.py CLI, each carrying the external inputs it
consumes: the loaded configuration (a feature lookup, or the load outcome
when it fails), whether `get_github` succeeds, git-status/confirmation
inputs, and the GitHub call results. -/
inductive Cmd where
  | start (ext : StartExt) (config : LoadResult (PyStr → Option Feature))
      (ghOk : Bool) (feature_id : PyStr)
  | done (config : LoadResult (PyStr → Option Feature)) (ghOk gitChanges : Bool)
      (confirm : PyStr) (fetchIssue : Except Unit Bool) (closeOk : Bool)
  | abort (confirm : PyStr)
  | list (config : LoadResult (PyStr → Option Feature))
  | showCmd (config : LoadResult (PyStr → Option Feature)) (feature_id : PyStr)
  | status (config : LoadResult (PyStr → Option Feature))
  | setupLabels (config : LoadResult (PyStr → Option Feature)) (ghOk labelOpsOk : Bool)
  | createPrompt (config : LoadResult (PyStr → Option Feature)) (feature_id : PyStr)
  | createAllPrompts (config : LoadResult (PyStr → Option Feature)) (overwrite : Bool)

/-- Whether a command is `start`. -/
def Cmd.isStart : Cmd → Bool
  | .start .. => true
  | _ => false

/-- Whether a command is `done`. -/
def Cmd.isDone : Cmd → Bool
  | .done .. => true
  | _ => false

/-- Whether a command is `abort`. -/
def Cmd.isAbort : Cmd → Bool
  | .abort .. => true
  | _ => false

/-- One invocation of an inquiry.py command, translated case by case from
the source, tracking its effect on the tracker file and on issue creation.
`cmd_start` (lines 175-259): refuse when a current feature exists; exit on
unknown feature or GitHub access failure; crash if the configuration load
or the issue creation raises; otherwise create the issue (with the
gathered labels) and set the tracker.  `cmd_done` (lines 262-326): exit
when no current feature; return without clearing when there are no git
changes and the user does not confirm; crash when the unguarded
`repo.get_issue` or the close call raises; otherwise clear the tracker.
`cmd_abort` (lines 329-341): clear the tracker only on confirmation.  The
remaining commands never touch the tracker and create no issues. -/
def step : Cmd → World → Outcome × World
  | .start ext config ghOk feature_id, w =>
    match get_current_feature w.currentFile with
    | .error _ => (.crashed, w)
    | .ok (some _) => (.exited, w)
    | .ok none =>
      match config with
      | .raised => (.crashed, w)
      | .exited => (.exited, w)
      | .ok features =>
        match features feature_id with
        | none => (.exited, w)
        | some feature =>
          if !ghOk then (.exited, w)
          else
            match ext.createIssue (pys "[" ++ feature_id ++ pys "] " ++ feature.title)
                (build_issue_body feature_id feature) (gatherLabels ext feature) with
            | .error _ => (.crashed, w)
            | .ok num =>
              (.ok, ⟨set_current_feature feature_id (num : Int),
                w.createdIssues ++ [num]⟩)
  | .done config ghOk gitChanges confirm fetchIssue closeOk, w =>
    match get_current_feature w.currentFile with
    | .error _ => (.crashed, w)
    | .ok none => (.exited, w)
    | .ok (some _) =>
      match config with
      | .raised => (.crashed, w)
      | .exited => (.exited, w)
      | .ok _features =>
        if !gitChanges && !(decide (pyLower confirm = pys "y")) then (.ok, w)
        else if !ghOk then (.exited, w)
        else
          match fetchIssue with
          | .error _ => (.crashed, w)
          | .ok isOpen =>
            if isOpen && !closeOk then (.crashed, w)
            else (.ok, ⟨clear_current_feature w.currentFile, w.createdIssues⟩)
  | .abort confirm, w =>
    match get_current_feature w.currentFile with
    | .error _ => (.crashed, w)
    | .ok none => (.ok, w)
    | .ok (some _) =>
      if decide (pyLower confirm = pys "y")
      then (.ok, ⟨clear_current_feature w.currentFile, w.createdIssues⟩)
      else (.ok, w)
  | .list config, w =>
    match config with
    | .raised => (.crashed, w)
    | .exited => (.exited, w)
    | .ok _ =>
      match get_current_feature w.currentFile with
      | .error _ => (.crashed, w)
      | .ok _ => (.ok, w)
  | .showCmd config feature_id, w =>
    match config with
    | .raised => (.crashed, w)
    | .exited => (.exited, w)
    | .ok features =>
      match features feature_id with
      | none => (.exited, w)
      | some _ => (.ok, w)
  | .status config, w =>
    match get_current_feature w.currentFile with
    | .error _ => (.crashed, w)
    | .ok none => (.ok, w)
    | .ok (some _) =>
      match config with
      | .raised => (.crashed, w)
      | _ => (.ok, w)
  | .setupLabels config ghOk labelOpsOk, w =>
    match config with
    | .raised => (.crashed, w)
    | .exited => (.exited, w)
    | .ok _ =>
      if !ghOk then (.exited, w)
      else if !labelOpsOk then (.crashed, w)
      else (.ok, w)
  | .createPrompt config feature_id, w =>
    match config with
    | .raised => (.crashed, w)
    | .exited => (.exited, w)
    | .ok features =>
      match features feature_id with
      | none => (.exited, w)
      | some _ => (.ok, w)
  | .createAllPrompts config _overwrite, w =>
    match config with
    | .raised => (.crashed, w)
    | .exited => (.exited, w)
    | .ok _ => (.ok, w)

/-- C2: at most one feature is tracked as current at any time.  Part 1:
`cmd_start` exits with an error, creating no issue and leaving the whole
world (tracker file and created issues) unchanged, whenever
`get_current_feature` already returns a pair.  Part 2: commands other than
`start`, `done` and `abort` never change the world.  Part 3: `start`
changes the tracker only when it returns normally from a state with no
current feature, and then sets it to a value.  Parts 4 and 5: `done` and
`abort` change the tracker only by clearing it. -/
theorem claim_C2 :
    (∀ (ext : StartExt) (config : LoadResult (PyStr → Option Feature)) (ghOk : Bool)
        (feature_id : PyStr) (w : World) (pr : PyStr × Int),
        get_current_feature w.currentFile = Except.ok (some pr) →
        step (Cmd.start ext config ghOk feature_id) w = (Outcome.exited, w)) ∧
    (∀ (cmd : Cmd) (w : World), cmd.isStart = false → cmd.isDone = false →
        cmd.isAbort = false → (step cmd w).2 = w) ∧
    (∀ (ext : StartExt) (config : LoadResult (PyStr → Option Feature)) (ghOk : Bool)
        (feature_id : PyStr) (w : World),
        (step (Cmd.start ext config ghOk feature_id) w).2.currentFile ≠ w.currentFile →
        (step (Cmd.start ext config ghOk feature_id) w).1 = Outcome.ok ∧
          get_current_feature w.currentFile = Except.ok none ∧
          (step (Cmd.start ext config ghOk feature_id) w).2.currentFile ≠ none) ∧
    (∀ (config : LoadResult (PyStr → Option Feature)) (ghOk gitChanges : Bool)
        (confirm : PyStr) (fetchIssue : Except Unit Bool) (closeOk : Bool) (w : World),
        (step (Cmd.done config ghOk gitChanges confirm fetchIssue closeOk) w).2.currentFile
            ≠ w.currentFile →
        (step (Cmd.done config ghOk gitChanges confirm fetchIssue closeOk) w).2.currentFile
          = none) ∧
    (∀ (confirm : PyStr) (w : World),
        (step (Cmd.abort confirm) w).2.currentFile ≠ w.currentFile →
        (step (Cmd.abort confirm) w).2.currentFile = none) := by
  refine ⟨?_, ?_, ?_, ?_, ?_⟩
  · intro ext config ghOk feature_id w pr h
    simp only [step]
    rw [h]
  · intro cmd w h1 h2 h3
    cases cmd with
    | start ext config ghOk feature_id => simp [Cmd.isStart] at h1
    | done config ghOk gitChanges confirm fetchIssue closeOk => simp [Cmd.isDone] at h2
    | abort confirm => simp [Cmd.isAbort] at h3
    | list config =>
      rcases config with f | _ | _
      · cases hcur : get_current_feature w.currentFile <;> simp [step, hcur]
      · rfl
      · rfl
    | showCmd config feature_id =>
      rcases config with f | _ | _
      · cases hf : f feature_id <;> simp [step, hf]
      · rfl
      · rfl
    | status config =>
      cases hcur : get_current_feature w.currentFile with
      | error u => simp [step, hcur]
      | ok v =>
        cases v <;> rcases config with f | _ | _ <;> simp [step, hcur]
    | setupLabels config ghOk labelOpsOk =>
      rcases config with f | _ | _
      · cases ghOk <;> cases labelOpsOk <;> simp [step]
      · rfl
      · rfl
    | createPrompt config feature_id =>
      rcases config with f | _ | _
      · cases hf : f feature_id <;> simp [step, hf]
      · rfl
      · rfl
    | createAllPrompts config overwrite =>
      rcases config with f | _ | _ <;> rfl
  · intro ext config ghOk feature_id w hne
    rcases hstep : step (Cmd.start ext config ghOk feature_id) w with ⟨o, w'⟩
    rw [hstep] at hne
    simp only [step] at hstep
    repeat' split at hstep
    all_goals cases hstep
    all_goals
      first
      | exact absurd rfl hne
      | exact ⟨rfl, by assumption, by simp [set_current_feature]⟩
  · intro config ghOk gitChanges confirm fetchIssue closeOk w hne
    rcases hstep : step (Cmd.done config ghOk gitChanges confirm fetchIssue closeOk) w
      with ⟨o, w'⟩
    rw [hstep] at hne
    simp only [step] at hstep
    repeat' split at hstep
    all_goals cases hstep
    all_goals
      first
      | exact absurd rfl hne
      | rfl
  · intro confirm w hne
    rcases hstep : step (Cmd.abort confirm) w with ⟨o, w'⟩
    rw [hstep] at hne
    simp only [step] at hstep
    repeat' split at hstep
    all_goals cases hstep
    all_goals
      first
      | exact absurd rfl hne
      | rfl

/-- Witness for C2: with the tracker file holding `"x:5"`, a concrete
`start` invocation exits and leaves the world unchanged, and a concrete
`list` invocation (not start/done/abort) leaves the world unchanged. -/
theorem claim_C2_witness :
    step (Cmd.start ⟨fun _ => Except.error (), fun _ _ => Except.error (),
        fun _ _ _ => Except.error ()⟩ (LoadResult.ok fun _ => none) true (pys "1.1"))
      ⟨some (pys "x:5"), []⟩ = (Outcome.exited, ⟨some (pys "x:5"), []⟩) ∧
    (step (Cmd.list (LoadResult.ok fun _ => none)) ⟨some (pys "x:5"), []⟩).2 =
      ⟨some (pys "x:5"), []⟩ :=
  ⟨claim_C2.1 _ _ _ _ _ (pys "x", 5) rfl,
    claim_C2.2.1 (Cmd.list (LoadResult.ok fun _ => none)) ⟨some (pys "x:5"), []⟩
      rfl rfl rfl⟩

/-- C6 (counterexample): the claim fails for `cmd_done` — the issue fetch
`repo.get_issue` is not wrapped in any try/except, so when it raises,
`cmd_done` crashes instead of completing. -/
theorem claim_C6_counterexample :
    (step (Cmd.done (LoadResult.ok fun _ => none) true true (pys "")
        (Except.error ()) true) ⟨some (pys "x:5"), []⟩).1 = Outcome.crashed ∧
      Outcome.crashed ≠ Outcome.ok := by
  exact ⟨rfl, fun h => Outcome.noConfusion h⟩

/-- C6 (amended): in `cmd_start`, every failure of the label lookup and
label creation calls is caught by a bare try/except and silently swallowed,
and the issue is still created with whichever labels succeeded (the
theorem quantifies over arbitrary lookup/create behaviour); but the issue
fetch in `cmd_done` is not caught: when `repo.get_issue` raises, `cmd_done`
crashes, does not complete, and leaves the tracker unchanged. -/
theorem claim_C6 :
    (∀ (ext : StartExt) (features : PyStr → Option Feature) (feature_id : PyStr)
        (w : World) (feature : Feature) (num : Nat),
        get_current_feature w.currentFile = Except.ok none →
        features feature_id = some feature →
        ext.createIssue (pys "[" ++ feature_id ++ pys "] " ++ feature.title)
            (build_issue_body feature_id feature) (gatherLabels ext feature) =
          Except.ok num →
        step (Cmd.start ext (LoadResult.ok features) true feature_id) w =
          (Outcome.ok, ⟨set_current_feature feature_id (num : Int),
            w.createdIssues ++ [num]⟩)) ∧
    (∀ (features : PyStr → Option Feature) (confirm : PyStr) (closeOk : Bool)
        (w : World) (pr : PyStr × Int) (e : Unit),
        get_current_feature w.currentFile = Except.ok (some pr) →
        step (Cmd.done (LoadResult.ok features) true true confirm (Except.error e)
          closeOk) w = (Outcome.crashed, w)) := by
  constructor
  · intro ext features feature_id w feature num hcur hf hci
    simp only [step]
    rw [hcur]
    dsimp only
    rw [hf]
    dsimp only
    rw [if_neg (by decide : ¬((!true) = true))]
    rw [hci]
  · intro features confirm closeOk w pr e hcur
    simp [step, hcur]

/-- Witness for C6: with every label lookup and creation failing but issue
creation succeeding with number 7, `start` still creates the issue and sets
the tracker; and a `done` whose issue fetch raises crashes with the tracker
intact. -/
theorem claim_C6_witness :
    step (Cmd.start ⟨fun _ => Except.error (), fun _ _ => Except.error (),
        fun _ _ _ => Except.ok 7⟩
        (LoadResult.ok fun _ => some ⟨pys "T", none, none, none,
          some (pys "phase:0"), some (pys "component:x"), some (pys "size:s")⟩)
        true (pys "1.1")) ⟨none, []⟩ =
      (Outcome.ok, ⟨set_current_feature (pys "1.1") 7, [7]⟩) ∧
    step (Cmd.done (LoadResult.ok fun _ => none) true true (pys "")
        (Except.error ()) true) ⟨some (pys "x:5"), []⟩ =
      (Outcome.crashed, ⟨some (pys "x:5"), []⟩) :=
  ⟨claim_C6.1 _ _ (pys "1.1") ⟨none, []⟩
      ⟨pys "T", none, none, none, some (pys "phase:0"), some (pys "component:x"),
        some (pys "size:s")⟩ 7 rfl rfl rfl,
    claim_C6.2 _ (pys "") true ⟨some (pys "x:5"), []⟩ (pys "x", 5) () rfl⟩
